import Mathlib

/-!
Verification of the Admission & Proximity-Selection Engine of the mvp101
repository (FastAPI application).  The development shallowly embeds:

* `app/services/quota_repository.py` — the Redis-backed quota repository.
  The Redis state is a partial map from keys to counter entries; the Lua
  script of `check_and_consume` becomes the pure state transformer
  `luaCheckAndConsume`.  A reachable-or-not connection (`StoreConn`) models
  the two failure sources of the Python code (client absent, transport
  exception), both of which raise `RuntimeError("redis_unavailable")`.
* `app/services/policy_engine.py` — `PolicyEngine.evaluate` as a pure
  function of the store, the UTC day string and the request context.
* `app/services/poi_service.py` — the greedy spacing selection of
  `POIService.find_nearest_pois`.  The code compares great-circle
  (haversine) float distances in kilometres; here distances are exact
  integers (metres, the code's kilometre values scaled by 1000) and the
  haversine function is an explicit parameter `hav` of the selection, so
  every theorem holds for the metric the code computes.  The PostGIS
  query is an external collaborator and enters as an `Except` outcome.
* `app/api/routes.py` — the `find_nearest` request pipeline: admin
  bypass, policy evaluation, challenge handling, search, and quota
  consumption.  The result records the final store connection and the
  list of keys passed to `check_and_consume`, so "never writes the
  shared counter" is a statement about the model, not a paraphrase.
-/

namespace Mvp101

/-! ## Quota store (app/services/quota_repository.py) -/

/-- One Redis entry for a quota key: the integer counter and the TTL it was
created with (`SET key 1 EX ttl`; later `INCR` keeps the TTL). -/
structure QuotaEntry where
  count : Nat
  ttl : Nat
deriving DecidableEq, Repr

/-- The Redis keyspace: a partial map from keys to entries. -/
def QuotaData := String → Option QuotaEntry

/-- Write one key of the keyspace. -/
def setKey (data : QuotaData) (key : String) (e : QuotaEntry) : QuotaData :=
  fun k => if k = key then some e else data k

/-- The integer value stored at a key (0 when the key is absent, matching
what a `GET` followed by `int(...)` observes). -/
def quotaCount (data : QuotaData) (key : String) : Nat :=
  match data key with
  | none => 0
  | some e => e.count

/-- A Redis connection: either reachable with a keyspace, or unreachable.
`unavailable` covers both failure sources of the Python code: a missing
client (`if not self.redis_client`) and a transport exception. -/
inductive StoreConn where
  | unavailable : StoreConn
  | ok : QuotaData → StoreConn

/-- The distinguished store-unavailable condition:
`RuntimeError("redis_unavailable")`. -/
inductive QuotaError where
  | redis_unavailable : QuotaError
deriving DecidableEq, Repr

/-- `QuotaRepository.get_usage`: 0 when the key is absent, the stored
counter otherwise, and the distinguished error when the store is
unreachable. -/
def get_usage (conn : StoreConn) (key : String) : Except QuotaError Int :=
  match conn with
  | .unavailable => .error QuotaError.redis_unavailable
  | .ok data =>
    match data key with
    | none => .ok 0
    | some e => .ok (e.count : Int)

/-- The Lua script of `QuotaRepository.check_and_consume`, as a pure state
transformer.  Absent key: create it at 1 with the TTL and return
`{1, limit - 1}`.  Counter at or over the limit: return `{0, 0}` without
touching the store.  Otherwise `INCR` and return `{1, limit - count}`. -/
def luaCheckAndConsume (limit : Int) (ttl : Nat) (key : String) (data : QuotaData) :
    (Bool × Int) × QuotaData :=
  match data key with
  | none => ((true, limit - 1), setKey data key ⟨1, ttl⟩)
  | some e =>
    if limit ≤ (e.count : Int) then ((false, 0), data)
    else ((true, limit - ((e.count : Int) + 1)), setKey data key ⟨e.count + 1, e.ttl⟩)

/-- `QuotaRepository.check_and_consume`: runs the Lua script on a reachable
store and raises the distinguished error otherwise. -/
def check_and_consume (conn : StoreConn) (key : String) (daily_limit : Int) (ttl : Nat) :
    Except QuotaError ((Bool × Int) × StoreConn) :=
  match conn with
  | .unavailable => .error QuotaError.redis_unavailable
  | .ok data =>
    let r := luaCheckAndConsume daily_limit ttl key data
    .ok (r.1, .ok r.2)

/-- A sequence of `n` serialized `check_and_consume` calls on one key (the
atomic Lua script serializes racing callers): the list of `(allowed,
remaining)` results in order, and the final keyspace. -/
def consumeTrace (limit : Int) (ttl : Nat) (key : String) :
    Nat → QuotaData → List (Bool × Int) × QuotaData
  | 0, data => ([], data)
  | Nat.succ n, data =>
    let r := luaCheckAndConsume limit ttl key data
    let rest := consumeTrace limit ttl key n r.2
    (r.1 :: rest.1, rest.2)

/-- Number of calls in a trace that returned `allowed = true`. -/
def successCount (trace : List (Bool × Int)) : Nat :=
  (trace.filter (fun p => p.1)).length

/-! ## Policy engine (app/services/policy_engine.py) -/

/-- `TierStatus` of app/services/entitlement_service.py. -/
inductive TierStatus where
  | FREE : TierStatus
  | PAID : TierStatus
deriving DecidableEq, Repr

inductive PolicyVerdict where
  | ALLOW : PolicyVerdict
  | BLOCK : PolicyVerdict
  | CHALLENGE_REQUIRED : PolicyVerdict
deriving DecidableEq, Repr

inductive FrictionType where
  | TURNSTILE : FrictionType
deriving DecidableEq, Repr

/-- `RequestContext` of policy_engine.py.  `turnstile_token = none` models
the Python `None`. -/
structure RequestContext where
  anon_id : String
  paid_tier : TierStatus
  area_code : String
  client_ip : String
  turnstile_token : Option String
deriving DecidableEq, Repr

structure PolicyDecision where
  verdict : PolicyVerdict
  quota_remaining : Int
  max_results : Int
  friction_type : Option FrictionType
  retry_after : Option Int
deriving DecidableEq, Repr

def FREE_TIER_DAILY_LIMIT : Int := 2
def PAID_TIER_DAILY_LIMIT : Int := 50
def FREE_TIER_RESULTS : Int := 1
def PAID_TIER_RESULTS : Int := 5

/-- The tier-dependent daily limit (`limit = FREE...; if PAID: limit = PAID...`). -/
def tierLimit (t : TierStatus) : Int :=
  if t = TierStatus.PAID then PAID_TIER_DAILY_LIMIT else FREE_TIER_DAILY_LIMIT

/-- The tier-dependent maximum result-set size. -/
def tierMaxResults (t : TierStatus) : Int :=
  if t = TierStatus.PAID then PAID_TIER_RESULTS else FREE_TIER_RESULTS

/-- Python truthiness of an optional string: `not tok` is true for `None`
and for the empty string. -/
def strFalsy : Option String → Bool
  | none => true
  | some s => decide (s = "")

/-- The key `PolicyEngine.evaluate` reads usage from:
`f"daily_read:{day}:{context.anon_id}"`. -/
def policyQuotaKey (day : String) (anon_id : String) : String :=
  "daily_read:" ++ day ++ ":" ++ anon_id

/-- `PolicyEngine.evaluate`.  Reads the current usage for the daily key
(propagating a store failure), then: BLOCK with `quota_remaining = 0` and
`retry_after = 3600 * 24` when `usage ≥ limit`; CHALLENGE_REQUIRED when the
tier is FREE and the turnstile token is missing; ALLOW otherwise.  The day
string (UTC `%Y%m%d`) is passed in instead of being read from the clock. -/
def evaluate (conn : StoreConn) (day : String) (context : RequestContext) :
    Except QuotaError PolicyDecision :=
  match get_usage conn (policyQuotaKey day context.anon_id) with
  | .error e => .error e
  | .ok current_usage =>
    if tierLimit context.paid_tier ≤ current_usage then
      .ok ⟨PolicyVerdict.BLOCK, 0, tierMaxResults context.paid_tier, none, some (3600 * 24)⟩
    else if strFalsy context.turnstile_token && decide (context.paid_tier = TierStatus.FREE) then
      .ok ⟨PolicyVerdict.CHALLENGE_REQUIRED,
           max 0 (tierLimit context.paid_tier - current_usage),
           tierMaxResults context.paid_tier, some FrictionType.TURNSTILE, none⟩
    else
      .ok ⟨PolicyVerdict.ALLOW,
           max 0 (tierLimit context.paid_tier - current_usage),
           tierMaxResults context.paid_tier, none, none⟩

/-! ## Spacing selection (app/services/poi_service.py) -/

/-- One row of the PostGIS candidate query, in query-distance order:
distance from the query point and the POI's name and coordinates.
Distances are exact integers in metres (the code carries kilometre floats;
all claim scenarios are whole metres). -/
structure Candidate where
  dist_m : Int
  name : String
  lat : Int
  lon : Int
deriving DecidableEq, Repr

/-- The distance function used for the spacing comparison.  The code calls
`haversine(lat, lon, s_lat, s_lon)`; the selection and its theorems are
parametric in this metric. -/
def HavFn := Int → Int → Int → Int → Int

/-- `haversine(lat, lon, s_lat, s_lon)` between a candidate and an
already-selected result. -/
def interDist (hav : HavFn) (c s : Candidate) : Int :=
  hav c.lat c.lon s.lat s.lon

/-- The inner loop of the selection: a candidate is far enough when its
distance to every already-selected result is not below the minimum
spacing (`inter_poi_dist < min_spacing` rejects). -/
def is_far_enough (hav : HavFn) (min_spacing : Int) (c : Candidate)
    (selected : List Candidate) : Bool :=
  selected.all fun s => !decide (interDist hav c s < min_spacing)

/-- The greedy selection loop of `find_nearest_pois`: stop when
`len(selected) >= max_results`, otherwise append the candidate when it is
far enough from everything selected so far, else skip it permanently. -/
def selectSpacedAux (hav : HavFn) (min_spacing : Int) (max_results : Nat) :
    List Candidate → List Candidate → List Candidate
  | [], selected => selected
  | c :: rest, selected =>
    if max_results ≤ selected.length then selected
    else if is_far_enough hav min_spacing c selected then
      selectSpacedAux hav min_spacing max_results rest (selected ++ [c])
    else
      selectSpacedAux hav min_spacing max_results rest selected

/-- The spacing selection applied to the candidate list (which the SQL
returns ordered ascending by distance), starting from an empty
accumulator. -/
def selectSpaced (hav : HavFn) (min_spacing : Int) (max_results : Nat)
    (cands : List Candidate) : List Candidate :=
  selectSpacedAux hav min_spacing max_results cands []

/-- `min_spacing_km = 0.03` of `find_nearest_pois`, in metres. -/
def min_spacing_m : Int := 30

/-- `POIService.find_nearest_pois` after the PostGIS query: a database
failure is caught inside the service (`except Exception: ... return [],
logs`), producing an empty result list, not an exception.  The Bool records
whether the "DB query failed" log branch was taken. -/
def find_nearest_pois (hav : HavFn) (max_results : Nat)
    (db_rows : Except String (List Candidate)) : List Candidate × Bool :=
  match db_rows with
  | .error _ => ([], true)
  | .ok rows => (selectSpaced hav min_spacing_m max_results rows, false)

/-! ## Request pipeline (app/api/routes.py, find_nearest) -/

/-- `settings.ADMIN_BYPASS_TOKEN and admin_hdr and admin_hdr ==
settings.ADMIN_BYPASS_TOKEN` with Python truthiness for both strings. -/
def adminBypass (cfg_token : Option String) (admin_hdr : Option String) : Bool :=
  !strFalsy cfg_token && !strFalsy admin_hdr && decide (admin_hdr = cfg_token)

/-- The key the consumption step of the route passes to
`check_and_consume`: `f"quota:{session_id}:{day}"`. -/
def consumeQuotaKey (session_id : String) (day : String) : String :=
  "quota:" ++ session_id ++ ":" ++ day

/-- The HTTP-level failures of the `find_nearest` route. -/
inductive RouteError where
  | internalLogicError : RouteError
  | quotaExceededPolicy : Option Int → Int → RouteError
  | challengeRequired : Int → RouteError
  | invalidChallenge : Int → RouteError
  | turnstileTimeout : RouteError
  | quotaExceededConsume : RouteError
  | enforcementUnavailable : RouteError
deriving DecidableEq, Repr

/-- The successful response payload: the selected results and
`quota_remaining` (the `remaining_after` of the route). -/
structure FindNearestOk where
  results : List Candidate
  quota_remaining : Int
deriving DecidableEq, Repr

/-- The request-level inputs of one `find_nearest` call, with the external
collaborators (turnstile verification, PostGIS query) as outcomes. -/
structure FindNearestDeps where
  cfg_admin_token : Option String
  admin_hdr : Option String
  anon_id : String
  session_id : Option String
  tier : TierStatus
  day : String
  area_code : String
  client_ip : String
  turnstile_token : Option String
  turnstile_outcome : Except Unit Bool
  db_rows : Except String (List Candidate)
  hav : HavFn

/-- What one request did: its outcome, the store connection afterwards, and
every key it passed to `check_and_consume`. -/
structure PipelineResult where
  outcome : Except RouteError FindNearestOk
  conn : StoreConn
  consumeCalls : List String

/-- The `find_nearest` route (steps 1–5 of routes.py): admin bypass check,
policy evaluation (a stub ALLOW decision under bypass), BLOCK handling,
challenge handling (403 when the token is missing or invalid, 408 when
verification times out), the POI search, and — only without bypass — the
`check_and_consume` consumption step, failing closed (503) when the store
is unreachable.  An unexpected exception (e.g. the store failing during
`evaluate`) is the route's catch-all 500. -/
def find_nearest (d : FindNearestDeps) (conn : StoreConn) : PipelineResult :=
  let admin_bypass := adminBypass d.cfg_admin_token d.admin_hdr
  let context : RequestContext :=
    ⟨d.anon_id, d.tier, d.area_code, d.client_ip, d.turnstile_token⟩
  let decisionE : Except QuotaError PolicyDecision :=
    if admin_bypass then .ok ⟨PolicyVerdict.ALLOW, 999, 5, none, none⟩
    else evaluate conn d.day context
  match decisionE with
  | .error _ => ⟨.error RouteError.internalLogicError, conn, []⟩
  | .ok decision =>
    if decision.verdict = PolicyVerdict.BLOCK then
      ⟨.error (RouteError.quotaExceededPolicy decision.retry_after decision.quota_remaining),
       conn, []⟩
    else
      let challengeAbort : Option RouteError :=
        if decision.verdict = PolicyVerdict.CHALLENGE_REQUIRED ∧ admin_bypass = false then
          if strFalsy d.turnstile_token then
            some (RouteError.challengeRequired decision.quota_remaining)
          else
            match d.turnstile_outcome with
            | .error _ => some RouteError.turnstileTimeout
            | .ok true => none
            | .ok false => some (RouteError.invalidChallenge decision.quota_remaining)
        else none
      match challengeAbort with
      | some e => ⟨.error e, conn, []⟩
      | none =>
        let search := find_nearest_pois d.hav decision.max_results.toNat d.db_rows
        if admin_bypass then
          ⟨.ok ⟨search.1, decision.quota_remaining⟩, conn, []⟩
        else
          let quota_key := consumeQuotaKey (d.session_id.getD d.anon_id) d.day
          let limit : Int :=
            if d.tier = TierStatus.FREE then FREE_TIER_DAILY_LIMIT else PAID_TIER_DAILY_LIMIT
          match check_and_consume conn quota_key limit 86400 with
          | .error _ => ⟨.error RouteError.enforcementUnavailable, conn, [quota_key]⟩
          | .ok (res, conn2) =>
            if res.1 = false then
              ⟨.error RouteError.quotaExceededConsume, conn2, [quota_key]⟩
            else
              ⟨.ok ⟨search.1, res.2⟩, conn2, [quota_key]⟩

/-! ## Lemmas about the quota store -/

theorem setKey_same (data : QuotaData) (key : String) (e : QuotaEntry) :
    setKey data key e key = some e := by
  simp [setKey]

theorem setKey_other (data : QuotaData) (key k : String) (e : QuotaEntry) (h : k ≠ key) :
    setKey data key e k = data k := by
  simp [setKey, h]

/-- The Lua script touches no key other than its own. -/
theorem lua_other_key (limit : Int) (ttl : Nat) (key k : String) (data : QuotaData)
    (h : k ≠ key) :
    (luaCheckAndConsume limit ttl key data).2 k = data k := by
  cases hd : data key with
  | none => simp [luaCheckAndConsume, hd, setKey, h]
  | some e =>
    by_cases hle : limit ≤ (e.count : Int)
    · simp [luaCheckAndConsume, hd, hle]
    · simp [luaCheckAndConsume, hd, hle, setKey, h]

/-- After one script run the counter grew by exactly 1 when the call was
allowed and is unchanged otherwise. -/
theorem lua_count_key (limit : Int) (ttl : Nat) (key : String) (data : QuotaData) :
    quotaCount (luaCheckAndConsume limit ttl key data).2 key
      = quotaCount data key + (if (luaCheckAndConsume limit ttl key data).1.1 then 1 else 0) := by
  cases hd : data key with
  | none => simp [luaCheckAndConsume, quotaCount, hd, setKey]
  | some e =>
    by_cases hle : limit ≤ (e.count : Int)
    · simp [luaCheckAndConsume, quotaCount, hd, hle]
    · simp [luaCheckAndConsume, quotaCount, hd, hle, setKey]

/-- One script run never decrements the counter. -/
theorem lua_monotone (limit : Int) (ttl : Nat) (key : String) (d : QuotaData) :
    quotaCount d key ≤ quotaCount (luaCheckAndConsume limit ttl key d).2 key := by
  have h := lua_count_key limit ttl key d
  split at h <;> omega

/-- An allowed call means the counter was strictly below the limit
beforehand (for limits of at least 1; the absent-key branch of the script
succeeds unconditionally). -/
theorem lua_allowed_lt (limit : Int) (ttl : Nat) (key : String) (data : QuotaData)
    (hlim : 1 ≤ limit) (hall : (luaCheckAndConsume limit ttl key data).1.1 = true) :
    (quotaCount data key : Int) < limit := by
  cases hd : data key with
  | none =>
    have h0 : quotaCount data key = 0 := by simp [quotaCount, hd]
    omega
  | some e =>
    have hc : quotaCount data key = e.count := by simp [quotaCount, hd]
    by_cases hle : limit ≤ (e.count : Int)
    · simp [luaCheckAndConsume, hd, hle] at hall
    · omega

/-- One script run keeps the counter at or below the limit (limit ≥ 1). -/
theorem lua_count_le (limit : Int) (ttl : Nat) (key : String) (data : QuotaData)
    (hlim : 1 ≤ limit) (hcnt : (quotaCount data key : Int) ≤ limit) :
    (quotaCount (luaCheckAndConsume limit ttl key data).2 key : Int) ≤ limit := by
  have h := lua_count_key limit ttl key data
  by_cases hb : (luaCheckAndConsume limit ttl key data).1.1 = true
  · have hlt := lua_allowed_lt limit ttl key data hlim hb
    rw [if_pos hb] at h
    omega
  · rw [if_neg hb] at h
    omega

/-- Over a whole trace the counter grew by exactly the number of allowed
calls. -/
theorem consumeTrace_count (limit : Int) (ttl : Nat) (key : String) (n : Nat) :
    ∀ data : QuotaData,
      quotaCount (consumeTrace limit ttl key n data).2 key
        = quotaCount data key + successCount (consumeTrace limit ttl key n data).1 := by
  induction n with
  | zero => intro data; simp [consumeTrace, successCount]
  | succ n ih =>
    intro data
    have h1 := lua_count_key limit ttl key data
    have h2 := ih (luaCheckAndConsume limit ttl key data).2
    cases hb : (luaCheckAndConsume limit ttl key data).1.1 with
    | true =>
      simp [consumeTrace, successCount, hb] at h1 h2 ⊢
      omega
    | false =>
      simp [consumeTrace, successCount, hb] at h1 h2 ⊢
      omega

/-- The counter never exceeds the limit over a whole trace (limit ≥ 1). -/
theorem consumeTrace_le (limit : Int) (ttl : Nat) (key : String) (hlim : 1 ≤ limit) (n : Nat) :
    ∀ data : QuotaData, (quotaCount data key : Int) ≤ limit →
      (quotaCount (consumeTrace limit ttl key n data).2 key : Int) ≤ limit := by
  induction n with
  | zero => intro data h; simpa [consumeTrace] using h
  | succ n ih =>
    intro data h
    simp only [consumeTrace]
    exact ih _ (lua_count_le limit ttl key data hlim h)

/-- Once the stored counter has reached the limit, every further call
returns `(false, 0)` and leaves the store untouched. -/
theorem consumeTrace_saturated (limit : Int) (ttl : Nat) (key : String) (n : Nat) :
    ∀ (data : QuotaData) (e : QuotaEntry), data key = some e → limit ≤ (e.count : Int) →
      consumeTrace limit ttl key n data = (List.replicate n ((false, 0) : Bool × Int), data) := by
  induction n with
  | zero => intro data e hd hle; simp [consumeTrace]
  | succ n ih =>
    intro data e hd hle
    have hstep : luaCheckAndConsume limit ttl key data = ((false, 0), data) := by
      simp [luaCheckAndConsume, hd, hle]
    simp [consumeTrace, hstep, List.replicate_succ, ih data e hd hle]

/-- Claim C1 (amended: the quota limit is at least 1).  For a single key,
any serialized sequence of `check_and_consume(key, limit, ttl)` calls
starting from an absent key (i) never drives the stored counter above
`limit`, (ii) never decrements it at any intermediate state, (iii) returns
`allowed = true` at most `limit` times, and (iv) with `limit = 1` exactly
the first of the calls succeeds and every other returns `(false, 0)`. -/
theorem check_and_consume_race_invariants (limit : Int) (ttl : Nat) (key : String)
    (data : QuotaData) (n : Nat) (hlim : 1 ≤ limit) (habs : data key = none) :
    (quotaCount (consumeTrace limit ttl key n data).2 key : Int) ≤ limit ∧
    (∀ d : QuotaData, quotaCount d key ≤ quotaCount (luaCheckAndConsume limit ttl key d).2 key) ∧
    (successCount (consumeTrace limit ttl key n data).1 : Int) ≤ limit ∧
    (limit = 1 → ∀ m : Nat, consumeTrace limit ttl key (m + 1) data
        = ((true, 0) :: List.replicate m ((false, 0) : Bool × Int), setKey data key ⟨1, ttl⟩)) := by
  have hzero : quotaCount data key = 0 := by simp [quotaCount, habs]
  have hle0 : (quotaCount data key : Int) ≤ limit := by omega
  refine ⟨consumeTrace_le limit ttl key hlim n data hle0,
          fun d => lua_monotone limit ttl key d, ?_, ?_⟩
  · have hc := consumeTrace_count limit ttl key n data
    have hb := consumeTrace_le limit ttl key hlim n data hle0
    omega
  · intro h1 m
    subst h1
    have hstep : luaCheckAndConsume 1 ttl key data = ((true, 0), setKey data key ⟨1, ttl⟩) := by
      simp [luaCheckAndConsume, habs]
    have hsat := consumeTrace_saturated 1 ttl key m (setKey data key ⟨1, ttl⟩) ⟨1, ttl⟩
      (setKey_same data key ⟨1, ttl⟩) (by simp)
    simp [consumeTrace, hstep, hsat]

/-- Claim C1 counterexample: with `limit = 0` the very first call on an
absent key is allowed (so more than `limit` calls succeed) and drives the
stored counter to 1, which is above the limit. -/
theorem check_and_consume_limit_zero_violates_bound :
    (luaCheckAndConsume 0 86400 "k" (fun _ => none)).1.1 = true ∧
    quotaCount (luaCheckAndConsume 0 86400 "k" (fun _ => none)).2 "k" = 1 ∧
    ¬ ((quotaCount (luaCheckAndConsume 0 86400 "k" (fun _ => none)).2 "k" : Int) ≤ 0) ∧
    ¬ ((successCount [(luaCheckAndConsume 0 86400 "k" (fun _ => none)).1] : Int) ≤ 0) := by
  decide

theorem check_and_consume_race_invariants_witness :
    (successCount (consumeTrace 1 86400 "k" 5 (fun _ => none)).1 : Int) ≤ 1 :=
  (check_and_consume_race_invariants 1 86400 "k" (fun _ => none) 5 (by decide) rfl).2.2.1

/-- Claim C10: on a key absent from the store, `check_and_consume` returns
`allowed = true` with `remaining = limit - 1` and creates the counter at 1
with the given TTL, for every limit value — including `limit = 0`, where
the call still succeeds and reports `remaining = -1`. -/
theorem check_and_consume_absent_key_first_call (limit : Int) (ttl : Nat) (key : String)
    (data : QuotaData) (habs : data key = none) :
    luaCheckAndConsume limit ttl key data = ((true, limit - 1), setKey data key ⟨1, ttl⟩) ∧
    (luaCheckAndConsume limit ttl key data).2 key = some ⟨1, ttl⟩ ∧
    check_and_consume (StoreConn.ok data) key limit ttl
      = .ok ((true, limit - 1), StoreConn.ok (setKey data key ⟨1, ttl⟩)) := by
  have h : luaCheckAndConsume limit ttl key data
      = ((true, limit - 1), setKey data key ⟨1, ttl⟩) := by
    simp [luaCheckAndConsume, habs]
  refine ⟨h, ?_, ?_⟩
  · rw [h]
    exact setKey_same data key ⟨1, ttl⟩
  · simp [check_and_consume, h]

/-- Claim C10 witness, at `limit = 0`: the first call succeeds with a
negative `remaining` of -1. -/
theorem check_and_consume_absent_key_first_call_witness :
    luaCheckAndConsume 0 86400 "k" (fun _ => none)
      = ((true, -1), setKey (fun _ => none) "k" ⟨1, 86400⟩) :=
  (check_and_consume_absent_key_first_call 0 86400 "k" (fun _ => none) rfl).1

/-- Claim C3: `get_usage` returns 0 for an absent key, and both `get_usage`
and `check_and_consume` surface an unreachable store as the distinguished
`redis_unavailable` error — never as usage 0 or as an `allowed` result. -/
theorem quota_store_fail_closed :
    (∀ (data : QuotaData) (key : String), data key = none →
        get_usage (StoreConn.ok data) key = .ok 0) ∧
    (∀ key : String, get_usage StoreConn.unavailable key
        = .error QuotaError.redis_unavailable) ∧
    (∀ (key : String) (limit : Int) (ttl : Nat),
        check_and_consume StoreConn.unavailable key limit ttl
          = .error QuotaError.redis_unavailable) ∧
    (∀ (key : String) (limit : Int) (ttl : Nat) (res : (Bool × Int) × StoreConn),
        check_and_consume StoreConn.unavailable key limit ttl ≠ .ok res) := by
  refine ⟨?_, fun key => rfl, fun key limit ttl => rfl, ?_⟩
  · intro data key h
    simp [get_usage, h]
  · intro key limit ttl res h
    simp [check_and_consume] at h

theorem quota_store_fail_closed_witness :
    get_usage (StoreConn.ok (fun _ => none)) "k" = .ok 0 :=
  quota_store_fail_closed.1 (fun _ => none) "k" rfl

/-- Claim C9: the key `PolicyEngine.evaluate` reads
(`daily_read:{day}:{anon_id}`) is never the key the consumption step of the
route writes (`quota:{session_id}:{day}`), so consuming quota never changes
the usage that `evaluate` observes. -/
theorem policy_read_key_disjoint_from_consume_key (day day2 anon session_id : String)
    (limit : Int) (ttl : Nat) (data : QuotaData) :
    policyQuotaKey day anon ≠ consumeQuotaKey session_id day2 ∧
    get_usage
        (StoreConn.ok (luaCheckAndConsume limit ttl (consumeQuotaKey session_id day2) data).2)
        (policyQuotaKey day anon)
      = get_usage (StoreConn.ok data) (policyQuotaKey day anon) := by
  have hne : policyQuotaKey day anon ≠ consumeQuotaKey session_id day2 := by
    intro h
    have h1 : (policyQuotaKey day anon).data.head? = some 'd' := rfl
    rw [h] at h1
    have h2 : (consumeQuotaKey session_id day2).data.head? = some 'q' := rfl
    rw [h2] at h1
    exact absurd h1 (by decide)
  refine ⟨hne, ?_⟩
  have hk := lua_other_key limit ttl (consumeQuotaKey session_id day2)
    (policyQuotaKey day anon) data hne
  simp [get_usage, hk]

theorem policy_read_key_disjoint_witness :
    policyQuotaKey "20260101" "anon1" ≠ consumeQuotaKey "anon1" "20260101" :=
  (policy_read_key_disjoint_from_consume_key "20260101" "20260101" "anon1" "anon1"
    1 1 (fun _ => none)).1

/-! ## Policy engine claims -/

/-- Claim C2: whenever the usage read for the caller's daily key is at or
over the tier limit (equality included: no off-by-one grace),
`PolicyEngine.evaluate` returns BLOCK with `quota_remaining = 0` and a
positive `retry_after`, whatever the verification token is. -/
theorem evaluate_blocks_at_or_over_limit (conn : StoreConn) (day : String)
    (ctx : RequestContext) (u : Int)
    (hu : get_usage conn (policyQuotaKey day ctx.anon_id) = .ok u)
    (hge : tierLimit ctx.paid_tier ≤ u) :
    ∃ d : PolicyDecision, evaluate conn day ctx = .ok d ∧
      d.verdict = PolicyVerdict.BLOCK ∧ d.quota_remaining = 0 ∧
      ∃ r : Int, d.retry_after = some r ∧ 0 < r := by
  refine ⟨⟨PolicyVerdict.BLOCK, 0, tierMaxResults ctx.paid_tier, none, some (3600 * 24)⟩,
    ?_, rfl, rfl, ⟨3600 * 24, rfl, by norm_num⟩⟩
  simp [evaluate, hu, hge]

/-- Claim C2 witness (scenario B): usage 2 at limit 2 on the FREE tier
blocks even with a token present. -/
theorem evaluate_blocks_at_or_over_limit_witness :
    ∃ d : PolicyDecision,
      evaluate
          (StoreConn.ok (setKey (fun _ => none) (policyQuotaKey "20260101" "anon1") ⟨2, 86400⟩))
          "20260101" ⟨"anon1", TierStatus.FREE, "global", "ip", some "tok"⟩
        = .ok d ∧
      d.verdict = PolicyVerdict.BLOCK ∧ d.quota_remaining = 0 ∧
      ∃ r : Int, d.retry_after = some r ∧ 0 < r :=
  evaluate_blocks_at_or_over_limit
    (StoreConn.ok (setKey (fun _ => none) (policyQuotaKey "20260101" "anon1") ⟨2, 86400⟩))
    "20260101" ⟨"anon1", TierStatus.FREE, "global", "ip", some "tok"⟩ 2 rfl (by decide)

/-- Claim C5: below the limit, a FREE-tier caller without a verification
token gets CHALLENGE_REQUIRED with `quota_remaining = limit - usage`; a
PAID-tier caller is never challenged; and in the request pipeline the
challenge abort happens with no `check_and_consume` call and an unchanged
store, so no quota is consumed. -/
theorem evaluate_free_no_token_challenge (conn : StoreConn) (day : String)
    (ctx : RequestContext) (u : Int)
    (hu : get_usage conn (policyQuotaKey day ctx.anon_id) = .ok u)
    (hlt : u < tierLimit ctx.paid_tier) :
    (ctx.paid_tier = TierStatus.FREE → strFalsy ctx.turnstile_token = true →
        evaluate conn day ctx
          = .ok ⟨PolicyVerdict.CHALLENGE_REQUIRED, tierLimit ctx.paid_tier - u,
                 tierMaxResults ctx.paid_tier, some FrictionType.TURNSTILE, none⟩) ∧
    (ctx.paid_tier = TierStatus.PAID →
        ∀ d : PolicyDecision, evaluate conn day ctx = .ok d →
          d.verdict ≠ PolicyVerdict.CHALLENGE_REQUIRED) ∧
    (∀ (dep : FindNearestDeps) (c : StoreConn) (v : Int),
        adminBypass dep.cfg_admin_token dep.admin_hdr = false →
        dep.tier = TierStatus.FREE → strFalsy dep.turnstile_token = true →
        get_usage c (policyQuotaKey dep.day dep.anon_id) = .ok v →
        v < FREE_TIER_DAILY_LIMIT →
        (find_nearest dep c).outcome
            = .error (RouteError.challengeRequired (FREE_TIER_DAILY_LIMIT - v)) ∧
        (find_nearest dep c).conn = c ∧
        (find_nearest dep c).consumeCalls = []) := by
  obtain ⟨anon, tier, area, ip, tok⟩ := ctx
  refine ⟨?_, ?_, ?_⟩
  · intro hf ht
    subst hf
    have hnb : ¬ tierLimit TierStatus.FREE ≤ u := not_le.mpr hlt
    have hmax : max 0 (tierLimit TierStatus.FREE - u) = tierLimit TierStatus.FREE - u :=
      max_eq_right (by omega)
    simp only [evaluate] at *
    simp [hu, hnb, ht, hmax]
  · intro hp d heval
    subst hp
    have hnb : ¬ PAID_TIER_DAILY_LIMIT ≤ u := by
      simpa [tierLimit] using not_le.mpr hlt
    simp [evaluate, hu, hnb, tierLimit, tierMaxResults] at heval
    rw [← heval]
    simp
  · intro dep c v hadm htier htok hv hvlt
    have hnb : ¬ FREE_TIER_DAILY_LIMIT ≤ v := not_le.mpr hvlt
    have hmax : max 0 (FREE_TIER_DAILY_LIMIT - v) = FREE_TIER_DAILY_LIMIT - v :=
      max_eq_right (by omega)
    have heval : evaluate c dep.day
        ⟨dep.anon_id, dep.tier, dep.area_code, dep.client_ip, dep.turnstile_token⟩
        = .ok ⟨PolicyVerdict.CHALLENGE_REQUIRED, FREE_TIER_DAILY_LIMIT - v,
               FREE_TIER_RESULTS, some FrictionType.TURNSTILE, none⟩ := by
      simp [evaluate, htier, htok, hv, hnb, hmax, tierLimit, tierMaxResults]
    refine ⟨?_, ?_, ?_⟩ <;>
      simp [find_nearest, hadm, heval, htok]

/-- Claim C5 witness (scenario A): FREE caller, 0 prior usage, limit 2, no
token: CHALLENGE_REQUIRED with 2 checks remaining. -/
theorem evaluate_free_no_token_challenge_witness :
    evaluate (StoreConn.ok (fun _ => none)) "20260101"
        ⟨"anon1", TierStatus.FREE, "global", "ip", none⟩
      = .ok ⟨PolicyVerdict.CHALLENGE_REQUIRED, 2, 1, some FrictionType.TURNSTILE, none⟩ :=
  (evaluate_free_no_token_challenge (StoreConn.ok (fun _ => none)) "20260101"
      ⟨"anon1", TierStatus.FREE, "global", "ip", none⟩ 0 rfl (by decide)).1 rfl rfl

/-! ## Lemmas about the spacing selection -/

theorem is_far_enough_iff (hav : HavFn) (minSp : Int) (c : Candidate) (acc : List Candidate) :
    is_far_enough hav minSp c acc = true ↔ ∀ s ∈ acc, minSp ≤ interDist hav c s := by
  simp [is_far_enough, List.all_eq_true, not_lt]

theorem is_far_enough_false (hav : HavFn) (minSp : Int) (c : Candidate) (acc : List Candidate)
    (h : ¬ is_far_enough hav minSp c acc = true) :
    ∃ s ∈ acc, interDist hav c s < minSp := by
  by_contra hc
  push_neg at hc
  exact h ((is_far_enough_iff hav minSp c acc).mpr hc)

/-- The selection loop only ever appends to its accumulator. -/
theorem selectSpacedAux_append (hav : HavFn) (minSp : Int) (maxR : Nat) :
    ∀ (cands acc : List Candidate),
      ∃ t, selectSpacedAux hav minSp maxR cands acc = acc ++ t := by
  intro cands
  induction cands with
  | nil => intro acc; exact ⟨[], by simp [selectSpacedAux]⟩
  | cons c rest ih =>
    intro acc
    by_cases hfull : maxR ≤ acc.length
    · exact ⟨[], by simp [selectSpacedAux, hfull]⟩
    · by_cases hfar : is_far_enough hav minSp c acc = true
      · obtain ⟨t, ht⟩ := ih (acc ++ [c])
        exact ⟨[c] ++ t, by simp [selectSpacedAux, hfull, hfar, ht]⟩
      · obtain ⟨t, ht⟩ := ih acc
        exact ⟨t, by simp [selectSpacedAux, hfull, hfar, ht]⟩

theorem mem_selectSpacedAux_of_mem_acc (hav : HavFn) (minSp : Int) (maxR : Nat)
    (cands acc : List Candidate) (x : Candidate) (hx : x ∈ acc) :
    x ∈ selectSpacedAux hav minSp maxR cands acc := by
  obtain ⟨t, ht⟩ := selectSpacedAux_append hav minSp maxR cands acc
  rw [ht]
  exact List.mem_append_left t hx

/-- Everything selected comes from the accumulator or the candidates. -/
theorem selectSpacedAux_subset (hav : HavFn) (minSp : Int) (maxR : Nat) :
    ∀ (cands acc : List Candidate) (x : Candidate),
      x ∈ selectSpacedAux hav minSp maxR cands acc → x ∈ acc ∨ x ∈ cands := by
  intro cands
  induction cands with
  | nil => intro acc x hx; simp [selectSpacedAux] at hx; exact Or.inl hx
  | cons c rest ih =>
    intro acc x hx
    by_cases hfull : maxR ≤ acc.length
    · simp [selectSpacedAux, hfull] at hx
      exact Or.inl hx
    · by_cases hfar : is_far_enough hav minSp c acc = true
      · rw [selectSpacedAux, if_neg hfull, if_pos hfar] at hx
        rcases ih (acc ++ [c]) x hx with h | h
        · rcases List.mem_append.mp h with h | h
          · exact Or.inl h
          · simp at h
            subst h
            simp
        · simp [h]
      · rw [selectSpacedAux, if_neg hfull, if_neg hfar] at hx
        rcases ih acc x hx with h | h
        · exact Or.inl h
        · simp [h]

/-- The selection never returns more than `max_results` results. -/
theorem selectSpacedAux_length (hav : HavFn) (minSp : Int) (maxR : Nat) :
    ∀ (cands acc : List Candidate), acc.length ≤ maxR →
      (selectSpacedAux hav minSp maxR cands acc).length ≤ maxR := by
  intro cands
  induction cands with
  | nil => intro acc h; simpa [selectSpacedAux] using h
  | cons c rest ih =>
    intro acc h
    by_cases hfull : maxR ≤ acc.length
    · simpa [selectSpacedAux, hfull] using h
    · by_cases hfar : is_far_enough hav minSp c acc = true
      · rw [selectSpacedAux, if_neg hfull, if_pos hfar]
        apply ih
        simp only [List.length_append, List.length_singleton]
        omega
      · rw [selectSpacedAux, if_neg hfull, if_neg hfar]
        exact ih acc h

/-- Every later selection is at least `min_spacing` away from every earlier
one, in the direction the code computes (`haversine(candidate, selected)`). -/
theorem selectSpacedAux_pairwise (hav : HavFn) (minSp : Int) (maxR : Nat) :
    ∀ (cands acc : List Candidate),
      List.Pairwise (fun a b => minSp ≤ interDist hav b a) acc →
      List.Pairwise (fun a b => minSp ≤ interDist hav b a)
        (selectSpacedAux hav minSp maxR cands acc) := by
  intro cands
  induction cands with
  | nil => intro acc h; simpa [selectSpacedAux] using h
  | cons c rest ih =>
    intro acc h
    by_cases hfull : maxR ≤ acc.length
    · simpa [selectSpacedAux, hfull] using h
    · by_cases hfar : is_far_enough hav minSp c acc = true
      · rw [selectSpacedAux, if_neg hfull, if_pos hfar]
        apply ih
        rw [List.pairwise_append]
        refine ⟨h, List.pairwise_singleton _ _, ?_⟩
        intro a ha b hb
        have hb' : b = c := by simpa using hb
        rw [hb']
        exact (is_far_enough_iff hav minSp c acc).mp hfar a ha
      · rw [selectSpacedAux, if_neg hfull, if_neg hfar]
        exact ih acc h

/-- On distance-sorted candidates the selection is distance-sorted. -/
theorem selectSpacedAux_sorted (hav : HavFn) (minSp : Int) (maxR : Nat) :
    ∀ (cands acc : List Candidate),
      List.Pairwise (fun a b : Candidate => a.dist_m ≤ b.dist_m) cands →
      List.Pairwise (fun a b : Candidate => a.dist_m ≤ b.dist_m) acc →
      (∀ a ∈ acc, ∀ x ∈ cands, a.dist_m ≤ x.dist_m) →
      List.Pairwise (fun a b : Candidate => a.dist_m ≤ b.dist_m)
        (selectSpacedAux hav minSp maxR cands acc) := by
  intro cands
  induction cands with
  | nil => intro acc _ hacc _; simpa [selectSpacedAux] using hacc
  | cons c rest ih =>
    intro acc hcands hacc hcross
    rw [List.pairwise_cons] at hcands
    obtain ⟨hhead, hrest⟩ := hcands
    by_cases hfull : maxR ≤ acc.length
    · simpa [selectSpacedAux, hfull] using hacc
    · by_cases hfar : is_far_enough hav minSp c acc = true
      · rw [selectSpacedAux, if_neg hfull, if_pos hfar]
        apply ih (acc ++ [c]) hrest
        · rw [List.pairwise_append]
          refine ⟨hacc, List.pairwise_singleton _ _, ?_⟩
          intro a ha b hb
          have hb' : b = c := by simpa using hb
          rw [hb']
          exact hcross a ha c (List.mem_cons_self c rest)
        · intro a ha x hx
          rcases List.mem_append.mp ha with h | h
          · exact hcross a h x (List.mem_cons_of_mem c hx)
          · have h' : a = c := by simpa using h
            rw [h']
            exact hhead x hx
      · rw [selectSpacedAux, if_neg hfull, if_neg hfar]
        exact ih acc hrest hacc (fun a ha x hx => hcross a ha x (by simp [hx]))

/-- When the selection did not fill up, every skipped candidate is within
`min_spacing` of something selected. -/
theorem selectSpacedAux_maximal (hav : HavFn) (minSp : Int) (maxR : Nat) :
    ∀ (cands acc : List Candidate),
      (selectSpacedAux hav minSp maxR cands acc).length < maxR →
      ∀ x ∈ cands, x ∈ selectSpacedAux hav minSp maxR cands acc ∨
        ∃ s ∈ selectSpacedAux hav minSp maxR cands acc, interDist hav x s < minSp := by
  intro cands
  induction cands with
  | nil => intro acc _ x hx; simp at hx
  | cons c rest ih =>
    intro acc hlen x hx
    by_cases hfull : maxR ≤ acc.length
    · rw [selectSpacedAux, if_pos hfull] at hlen
      omega
    · by_cases hfar : is_far_enough hav minSp c acc = true
      · rw [selectSpacedAux, if_neg hfull, if_pos hfar] at hlen ⊢
        rcases List.mem_cons.mp hx with h | h
        · refine Or.inl (mem_selectSpacedAux_of_mem_acc hav minSp maxR rest (acc ++ [c]) x ?_)
          rw [h]
          simp
        · exact ih (acc ++ [c]) hlen x h
      · rw [selectSpacedAux, if_neg hfull, if_neg hfar] at hlen ⊢
        rcases List.mem_cons.mp hx with h | h
        · obtain ⟨s, hs, hd⟩ := is_far_enough_false hav minSp c acc hfar
          refine Or.inr ⟨s, mem_selectSpacedAux_of_mem_acc hav minSp maxR rest acc s hs, ?_⟩
          rw [h]
          exact hd
        · exact ih acc hlen x h

/-- Claim C4 (amended).  For distance-sorted candidates and a symmetric
metric, the selection (i) returns at most `max_results` results, (ii) keeps
every pair of selected results at least `min_spacing` apart in both
directions, (iii) is sorted by distance from the query point
non-strictly — ties are kept in input order, not strictly closer —
(iv) only returns candidates, and (v) whenever it returned fewer than
`max_results` results, every remaining candidate is within `min_spacing`
of some selected result. -/
theorem selectSpaced_spacing_properties (hav : HavFn) (minSp : Int) (maxR : Nat)
    (cands : List Candidate)
    (hsym : ∀ a b : Candidate, interDist hav a b = interDist hav b a)
    (hsorted : List.Pairwise (fun a b : Candidate => a.dist_m ≤ b.dist_m) cands) :
    (selectSpaced hav minSp maxR cands).length ≤ maxR ∧
    List.Pairwise (fun a b => minSp ≤ interDist hav a b ∧ minSp ≤ interDist hav b a)
      (selectSpaced hav minSp maxR cands) ∧
    List.Pairwise (fun a b : Candidate => a.dist_m ≤ b.dist_m)
      (selectSpaced hav minSp maxR cands) ∧
    (∀ x ∈ selectSpaced hav minSp maxR cands, x ∈ cands) ∧
    ((selectSpaced hav minSp maxR cands).length < maxR →
      ∀ x ∈ cands, x ∈ selectSpaced hav minSp maxR cands ∨
        ∃ s ∈ selectSpaced hav minSp maxR cands, interDist hav x s < minSp) := by
  refine ⟨selectSpacedAux_length hav minSp maxR cands [] (by simp), ?_, ?_, ?_, ?_⟩
  · have h := selectSpacedAux_pairwise hav minSp maxR cands [] List.Pairwise.nil
    exact h.imp fun hab => ⟨(hsym _ _).symm ▸ hab, hab⟩
  · exact selectSpacedAux_sorted hav minSp maxR cands [] hsorted List.Pairwise.nil
      (by simp)
  · intro x hx
    rcases selectSpacedAux_subset hav minSp maxR cands [] x hx with h | h
    · simp at h
    · exact h
  · exact selectSpacedAux_maximal hav minSp maxR cands []

theorem selectSpaced_spacing_properties_witness :
    (selectSpaced (fun _ _ _ _ => 100) 30 1 [⟨10, "a", 0, 0⟩, ⟨20, "b", 5, 5⟩]).length ≤ 1 :=
  (selectSpaced_spacing_properties (fun _ _ _ _ => 100) 30 1
    [⟨10, "a", 0, 0⟩, ⟨20, "b", 5, 5⟩] (fun a b => rfl) (by decide)).1

/-- Integer distance on a line: `|a - b|` without subtraction-order bias. -/
def qdistI (a b : Int) : Int := if a ≤ b then b - a else a - b

/-- A taxicab metric on the coordinate fields, used as a concrete symmetric
stand-in metric for counterexamples. -/
def havTaxi : HavFn := fun la lo lb lob => qdistI la lb + qdistI lo lob

/-- A collinear configuration: candidates on a line through the query
point, the `lat` field holding the signed position in metres, so the
inter-POI distance is the difference of positions. -/
def havLine : HavFn := fun la _ lb _ => qdistI la lb

/-- The spacing claim exactly as stated: pairwise spacing, each selected
result strictly closer than all later ones, and unconditional maximality
of the result set. -/
def spacingClaimStrict (hav : HavFn) (minSp : Int) (maxR : Nat) (cands : List Candidate) : Prop :=
  List.Pairwise (fun a b => minSp ≤ interDist hav a b ∧ minSp ≤ interDist hav b a)
    (selectSpaced hav minSp maxR cands) ∧
  List.Pairwise (fun a b : Candidate => a.dist_m < b.dist_m)
    (selectSpaced hav minSp maxR cands) ∧
  (∀ x ∈ cands, x ∈ selectSpaced hav minSp maxR cands ∨
      ∃ s ∈ selectSpaced hav minSp maxR cands, interDist hav x s < minSp)

/-- Claim C4 counterexample: two candidates tied at distance 200 that are
400 apart both get selected (so "strictly closer" fails on the tie), and
with `max_results = 2` the third candidate at 260 — more than the minimum
spacing from both selected results — is left out (so unconditional
maximality fails too). -/
theorem selectSpaced_strict_claim_false :
    ¬ spacingClaimStrict havTaxi 30 2
        [⟨200, "P1", 200, 0⟩, ⟨200, "P2", -200, 0⟩, ⟨260, "P3", 0, 260⟩] := by
  unfold spacingClaimStrict
  decide

/-- Claim C8 (scenario C): six candidates at 10, 15, 40, 45, 200 and 260
metres on a line, minimum spacing 30 m, `max_results = 5`: 15 is rejected
against 10, 45 against 40, 260 is at least 30 from 200 and is accepted, so
the selection is exactly the 10, 40, 200 and 260 candidates. -/
theorem find_nearest_pois_scenario_c :
    find_nearest_pois havLine 5
        (.ok [⟨10, "A", 10, 0⟩, ⟨15, "B", 15, 0⟩, ⟨40, "C", 40, 0⟩,
              ⟨45, "D", 45, 0⟩, ⟨200, "E", 200, 0⟩, ⟨260, "F", 260, 0⟩])
      = ([⟨10, "A", 10, 0⟩, ⟨40, "C", 40, 0⟩, ⟨200, "E", 200, 0⟩, ⟨260, "F", 260, 0⟩],
         false) ∧
    is_far_enough havLine min_spacing_m ⟨15, "B", 15, 0⟩ [⟨10, "A", 10, 0⟩] = false ∧
    is_far_enough havLine min_spacing_m ⟨45, "D", 45, 0⟩
      [⟨10, "A", 10, 0⟩, ⟨40, "C", 40, 0⟩] = false ∧
    is_far_enough havLine min_spacing_m ⟨260, "F", 260, 0⟩
      [⟨10, "A", 10, 0⟩, ⟨40, "C", 40, 0⟩, ⟨200, "E", 200, 0⟩] = true := by
  decide

/-! ## Request pipeline claims -/

/-- Claim C7: with the administrative override active (header matching the
configured token) the pipeline skips policy evaluation and friction and
never invokes `check_and_consume` on any key: the store connection is
returned untouched and the outcome is just the search result with the
stub quota figure of 999. -/
theorem find_nearest_admin_bypass_no_consume (d : FindNearestDeps) (conn : StoreConn)
    (hadmin : adminBypass d.cfg_admin_token d.admin_hdr = true) :
    (find_nearest d conn).consumeCalls = [] ∧
    (find_nearest d conn).conn = conn ∧
    (find_nearest d conn).outcome
      = .ok ⟨(find_nearest_pois d.hav 5 d.db_rows).1, 999⟩ := by
  refine ⟨?_, ?_, ?_⟩ <;> simp [find_nearest, hadmin]

theorem find_nearest_admin_bypass_no_consume_witness :
    (find_nearest
        ⟨some "tkn", some "tkn", "anon1", none, TierStatus.FREE, "20260101",
         "global", "ip", none, .ok true, .ok [], fun _ _ _ _ => 0⟩
        (StoreConn.ok (fun _ => none))).consumeCalls = [] :=
  (find_nearest_admin_bypass_no_consume
    ⟨some "tkn", some "tkn", "anon1", none, TierStatus.FREE, "20260101",
     "global", "ip", none, .ok true, .ok [], fun _ _ _ _ => 0⟩
    (StoreConn.ok (fun _ => none)) (by decide)).1

/-- A `find_nearest` request of a PAID caller on a fresh day whose PostGIS
query fails. -/
def dbFailDeps : FindNearestDeps :=
  ⟨none, none, "anon1", some "s1", TierStatus.PAID, "20260101", "global", "ip",
   none, .ok true, .error "db down", fun _ _ _ _ => 0⟩

/-- Claim C6 evidence (code bug): a failed spatial query is swallowed
inside `POIService.find_nearest_pois` (`except Exception: ... return [],
logs`), so the route's POI-error branch never fires for it: the request
returns success with an empty result list and still calls
`check_and_consume`, driving the caller's counter from 0 to 1 — a failed
search costs quota, contrary to the claim and to the spec's
candidate-source-fault rule. -/
theorem find_nearest_db_failure_still_consumes :
    (find_nearest_pois (fun _ _ _ _ => 0) 5 (.error "db down")).1 = [] ∧
    (find_nearest dbFailDeps (StoreConn.ok (fun _ => none))).consumeCalls
      = ["quota:s1:20260101"] ∧
    (find_nearest dbFailDeps (StoreConn.ok (fun _ => none))).outcome
      = .ok ⟨[], 49⟩ ∧
    get_usage (find_nearest dbFailDeps (StoreConn.ok (fun _ => none))).conn
        "quota:s1:20260101" = .ok 1 := by
  exact ⟨rfl, by decide, rfl, rfl⟩

end Mvp101
